import Mathlib

/-!
Shallow embedding of the WebGL portfolio scene module
(`RoboticsScene` particle system and `Portrait` scene lifecycle).

JavaScript double arithmetic is idealised as exact rational arithmetic (ℚ);
the transcendental pieces of the shaders (`sin`, `sqrt`) are modelled over ℝ.
React effect re-runs are modelled as explicit state-transition functions, and
object identity (reference equality of GPU resources) is modelled with
allocation counters handing out fresh natural-number ids.
-/

/-! ## GLSL built-ins used by the shaders -/

/-- GLSL `clamp(x, minVal, maxVal) = min(max(x, minVal), maxVal)`
(the conventional implementation; the GLSL spec leaves `minVal > maxVal`
undefined). -/
def glslClamp (x minVal maxVal : ℚ) : ℚ := min (max x minVal) maxVal

/-- GLSL `mod(x, y) = x - y * floor(x / y)`. -/
def glslMod (x y : ℚ) : ℚ := x - y * ⌊x / y⌋

/-! ## Vertex shader: life progress

Source line: `lifeProgress = mod(time+timeOffset,1.0);` -/

/-- The per-vertex phase computed by the vertex shader. -/
def lifeProgress (time timeOffset : ℚ) : ℚ := glslMod (time + timeOffset) 1

/-! ## Fragment shader

Source lines:
  `float depth = gl_FragCoord.z / gl_FragCoord.w / 5.0;`
  `float opacity = clamp(0.2, 1.0, depth);`
  `color.a = sin(lifeProgress*100.0)*opacity;` -/

/-- Depth value fed to the opacity computation, from the fragment coordinates. -/
def fragmentDepth (z w : ℚ) : ℚ := z / w / 5

/-- The opacity factor exactly as the fragment shader source computes it:
`clamp(0.2, 1.0, depth)` — note the argument order in the source puts the
constants in the `x`/`minVal` slots and `depth` in the `maxVal` slot. -/
def fragmentOpacity (depth : ℚ) : ℚ := glslClamp (1/5) 1 depth

/-- The opacity factor as the specification describes it: the depth value
clamped to the interval [0.2, 1.0]. -/
def specOpacity (depth : ℚ) : ℚ := glslClamp depth (1/5) 1

/-- The alpha channel written by the fragment shader:
`sin(lifeProgress*100.0) * opacity`. -/
noncomputable def fragmentAlpha (lp depth : ℚ) : ℝ :=
  Real.sin ((lp : ℝ) * 100) * (fragmentOpacity depth : ℝ)

/-! ## ParticleSystem time state and `update`

Source: constructor sets `this.time = 0.0` and the uniforms
`time: { value: 5.0 }`; `update(dt)` does `this.time += 0.0001;` and
`this.mesh.material.uniforms.time.value = Math.sin(this.time);`. -/

/-- Mutable time state of a `ParticleSystem`: the internal accumulator
`this.time` and the published uniform `uniforms.time.value`. -/
structure PSState where
  time : ℚ
  timeUniform : ℝ

/-- State right after the `ParticleSystem` constructor ran:
`this.time = 0.0`, `uniforms.time.value = 5.0`. -/
noncomputable def particleInit : PSState := { time := 0, timeUniform := 5 }

/-- `ParticleSystem.prototype.update(dt)`: adds the fixed constant `0.0001`
to the accumulator (ignoring `dt`) and republishes the `time` uniform as
`Math.sin` of the new accumulator value. -/
noncomputable def PSState.update (s : PSState) (dt : ℚ) : PSState :=
  { time := s.time + 1/10000
    timeUniform := Real.sin ((s.time + 1/10000 : ℚ) : ℝ) }

/-- `n` successive `update` calls (the argument passed for `dt` is irrelevant,
see `c3_update_fixed_step_deterministic`; `0` is used here). -/
noncomputable def PSState.updateN (s : PSState) : ℕ → PSState
  | 0 => s
  | n + 1 => (s.updateN n).update 0

/-! ## Geometry construction (ParticleSystem constructor)

The constructor builds one template triangle plus five per-instance
attribute arrays from `Math.random()` draws.  Randomness is modelled as an
arbitrary stream `rand : ℕ → ℚ` consumed sequentially: instance `i` of
`offsets` uses draws `3i, 3i+1, 3i+2`; `timeOffsets` uses draw `3N + i`;
`orientationStart` instance `i` uses draws `4N + 4i .. 4N + 4i + 3`; and
`orientationEnd` uses `8N + 4i .. 8N + 4i + 3`. -/

/-- One colour channel of `THREE.Color.setHex`: `(hex >> shift) & 0xff`,
scaled to [0,1]. -/
def hexChannel (hex shift : ℕ) : ℚ := (((hex / shift) % 256 : ℕ) : ℚ) / 255

/-- `THREE.Color.setHex` followed by `setXYZW(_, r, g, b, 1)`. -/
def hexToRGBA (hex : ℕ) : ℚ × ℚ × ℚ × ℚ :=
  (hexChannel hex 65536, hexChannel hex 256, hexChannel hex 1, 1)

/-- The colour loop of the constructor: a `count` flag starts at 1 and
toggles, yielding the green main colour on even instances and the orange
main colour on odd ones. -/
def colorsLoop (green orange : ℚ × ℚ × ℚ × ℚ) : ℕ → ℕ → List (ℚ × ℚ × ℚ × ℚ)
  | _, 0 => []
  | count, n + 1 =>
    if count = 1 then green :: colorsLoop green orange 0 n
    else orange :: colorsLoop green orange 1 n

/-- Four consecutive draws mapped through `Math.random() * 2 - 1`, as in
`vector.set(...)` before `vector.normalize()`. -/
def quatSample (rand : ℕ → ℚ) (base : ℕ) : Fin 4 → ℚ :=
  fun j => 2 * rand (base + j.val) - 1

/-- Squared euclidean length of a rational 4-vector. -/
def sumSq4Q (v : Fin 4 → ℚ) : ℚ := v 0 ^ 2 + v 1 ^ 2 + v 2 ^ 2 + v 3 ^ 2

/-- Squared euclidean length of a real 4-vector. -/
def sumSq4R (v : Fin 4 → ℝ) : ℝ := v 0 ^ 2 + v 1 ^ 2 + v 2 ^ 2 + v 3 ^ 2

/-- `THREE.Vector4.normalize = divideScalar(length() || 1)`: divide every
component by the euclidean length, except that a zero-length vector is left
unchanged (the `|| 1` guard). -/
noncomputable def vec4Normalize (v : Fin 4 → ℚ) : Fin 4 → ℝ :=
  if sumSq4Q v = 0 then fun j => (v j : ℝ)
  else fun j => (v j : ℝ) / Real.sqrt ((sumSq4Q v : ℚ) : ℝ)

/-- The attribute bundle held by the `InstancedBufferGeometry`. -/
structure PGeometry where
  position : List (ℚ × ℚ × ℚ)
  offsets : List (ℚ × ℚ × ℚ)
  colors : List (ℚ × ℚ × ℚ × ℚ)
  timeOffsets : List ℚ
  orientationStart : List (Fin 4 → ℝ)
  orientationEnd : List (Fin 4 → ℝ)

/-- The constructor's geometry build, generalised over the instance count
(the source fixes `instances = 2000`).  `unit = 0.055`, spread `dist = 60`. -/
noncomputable def buildGeometry (rand : ℕ → ℚ) (instances : ℕ) : PGeometry :=
  { position := [(11/200, -(11/200), 0), (-(11/200), 11/200, 0), (0, 0, 11/200)]
    offsets := (List.range instances).map (fun i =>
      ((rand (3*i) - 1/2) * 60, (rand (3*i+1) - 1/2) * 60, (rand (3*i+2) - 1/2) * 60))
    colors := colorsLoop (hexToRGBA 0x8eb934) (hexToRGBA 0xfec23e) 1 instances
    timeOffsets := (List.range instances).map (fun i => rand (3*instances + i))
    orientationStart := (List.range instances).map (fun i =>
      vec4Normalize (quatSample rand (4*instances + 4*i)))
    orientationEnd := (List.range instances).map (fun i =>
      vec4Normalize (quatSample rand (8*instances + 4*i))) }

/-- Geometry construction taking the instance count as a JavaScript number:
the source never validates the count; a negative count first fails inside
`new Float32Array(instances * 3)` with a RangeError, while a zero count
silently builds empty arrays. -/
noncomputable def particleConstructN (rand : ℕ → ℚ) (instances : ℤ) :
    Except String PGeometry :=
  if instances < 0 then Except.error "RangeError: invalid typed array length"
  else Except.ok (buildGeometry rand instances.toNat)

/-! ## Scene lifecycle: mount traces, theme changes, resize, loop stop

React effects are modelled as explicit transitions.  A mount runs the
component's effects in declaration order; the observable actions are
collected in a trace. -/

/-- Observable actions of the scene components:
a call to the resize routine, a `renderer.render` call, and scheduling a
frame-paced tick via `requestAnimationFrame`. -/
inductive Ev where
  | resize
  | render
  | schedule
  deriving DecidableEq

/-- Portrait init effect: creates renderer/camera/scene and starts async
asset loads; no resize call, render, or tick scheduling. -/
def portraitInitEv : List Ev := []

/-- Portrait lights effect: adds lights; no resize/render/schedule. -/
def portraitLightsEv : List Ev := []

/-- Portrait resize effect: registers the listener and then calls
`handleResize()` immediately; `handleResize` itself performs one render
when motion is reduced. -/
def portraitResizeEv (reduced : Bool) : List Ev :=
  Ev.resize :: (if reduced then [Ev.render] else [])

/-- Portrait mouse-move effect: registers a listener only. -/
def portraitMouseEv : List Ev := []

/-- Portrait renders effect: when motion is not reduced and the canvas is in
the viewport, `animate()` schedules the next tick and renders; otherwise it
performs exactly one render and schedules nothing. -/
def portraitRenderEv (reduced inViewport : Bool) : List Ev :=
  if !reduced && inViewport then [Ev.schedule, Ev.render] else [Ev.render]

/-- Portrait mount actions that happen after the initial resize call has
returned. -/
def portraitAfterResizeEv (reduced inViewport : Bool) : List Ev :=
  portraitMouseEv ++ portraitRenderEv reduced inViewport

/-- Full Portrait mount trace: effects run in declaration order. -/
def portraitMount (reduced inViewport : Bool) : List Ev :=
  portraitInitEv ++ portraitLightsEv ++ portraitResizeEv reduced ++
    portraitAfterResizeEv reduced inViewport

/-- RoboticsScene particles effect: builds the particle system only. -/
def roboticsParticlesEv : List Ev := []

/-- RoboticsScene scene effect: builds scene/camera/renderer/lights; it never
calls the resize routine and never renders. -/
def roboticsSceneEv : List Ev := []

/-- RoboticsScene resize effect: only registers a window listener (and only
when motion is not reduced); it never invokes the routine itself. -/
def roboticsResizeEv : List Ev := []

/-- RoboticsScene render effect: when motion is not reduced, `render()`
renders then schedules the next tick; when motion is reduced it does
nothing at all. -/
def roboticsRenderEv (reduced : Bool) : List Ev :=
  if reduced then [] else [Ev.render, Ev.schedule]

/-- Full RoboticsScene mount trace. -/
def roboticsMount (reduced : Bool) : List Ev :=
  roboticsParticlesEv ++ roboticsSceneEv ++ roboticsResizeEv ++
    roboticsRenderEv reduced

/-! ### Resize routines (state level) -/

/-- Renderer/camera state touched by the resize routines.  `projAspect` is
the aspect last baked into the projection matrix and `projCount` counts
`updateProjectionMatrix` calls. -/
structure ViewState where
  rendererW : ℚ
  rendererH : ℚ
  aspect : ℚ
  projAspect : ℚ
  projCount : ℕ

/-- `camera.updateProjectionMatrix()`: rebuilds the projection from the
current aspect. -/
def updateProjectionMatrix (c : ViewState) : ViewState :=
  { c with projAspect := c.aspect, projCount := c.projCount + 1 }

/-- Portrait `handleResize`: `renderer.setSize(w, h)`, `camera.aspect = w/h`,
`camera.updateProjectionMatrix()` (with `w`, `h` the container's client
dimensions). -/
def portraitHandleResize (w h : ℚ) (s : ViewState) : ViewState :=
  updateProjectionMatrix { s with rendererW := w, rendererH := h, aspect := w / h }

/-- RoboticsScene `handleWindowResize`: the same three steps, with `w`, `h`
read from `window.innerWidth` / `window.innerHeight`. -/
def roboticsHandleWindowResize (w h : ℚ) (s : ViewState) : ViewState :=
  updateProjectionMatrix { s with rendererW := w, rendererH := h, aspect := w / h }

/-! ### Theme change (object identity) -/

/-- Identity-level scene state: GPU-resident objects carry allocation ids
handed out by `nextId`; reference equality is id equality. -/
structure SceneState where
  nextId : ℕ
  sceneId : ℕ
  cameraId : ℕ
  cameraPos : ℚ × ℚ × ℚ
  rendererId : ℕ
  geometryId : ℕ
  lightIds : List ℕ
  backgroundId : ℕ

/-- Ids of live objects never exceed the allocation counter. -/
def SceneState.wf (s : SceneState) : Prop :=
  s.cameraId < s.nextId ∧ s.geometryId < s.nextId ∧ s.rendererId < s.nextId ∧
    ∀ l ∈ s.lightIds, l < s.nextId

/-- Portrait lights effect re-run on a theme change: cleanup removes the old
lights, then a fresh ambient light, directional light, and background
`Color` are created; scene, camera, renderer and geometry are untouched. -/
def portraitThemeChange (s : SceneState) : SceneState :=
  { s with lightIds := [s.nextId, s.nextId + 1]
           backgroundId := s.nextId + 2
           nextId := s.nextId + 3 }

/-- RoboticsScene on a theme change: the particles effect (which has no
dependency array) re-runs and builds a new `ParticleSystem`, and the
`[currentTheme]` effect builds a new scene, camera (position reset to
(0, 1.7, 0.5)), renderer and lights. -/
def roboticsThemeChange (s : SceneState) : SceneState :=
  { nextId := s.nextId + 6
    geometryId := s.nextId
    sceneId := s.nextId + 1
    cameraId := s.nextId + 2
    cameraPos := (0, 17/10, 1/2)
    rendererId := s.nextId + 3
    lightIds := [s.nextId + 4, s.nextId + 5]
    backgroundId := s.backgroundId }

/-! ### Render-loop stop -/

/-- Render-loop controller state: the set of pending frame-paced ticks and
the last `requestAnimationFrame` handle captured in `animation`. -/
structure LoopState where
  pendingTicks : List ℕ
  animation : Option ℕ

/-- `cancelAnimationFrame(handle)`: removes the tick with that handle if
pending; never raises, also on an absent or never-assigned handle. -/
def cancelAnimationFrame (handle : Option ℕ) (pending : List ℕ) : List ℕ :=
  match handle with
  | none => pending
  | some id => pending.erase id

/-- The Portrait render-effect cleanup: `cancelAnimationFrame(animation)`.
A total function: stopping raises no error in any state. -/
def loopStop (s : LoopState) : LoopState :=
  { s with pendingTicks := cancelAnimationFrame s.animation s.pendingTicks }

/-- Reachable controller states: `Idle` with no pending tick, or `Running`
with exactly the tick named by `animation` pending. -/
def LoopState.reachable (s : LoopState) : Prop :=
  s.pendingTicks = [] ∨ ∃ t, s.animation = some t ∧ s.pendingTicks = [t]

/-! ## Theorems for claims C1, C2, C3, C10 -/

lemma glslMod_one (x : ℚ) : glslMod x 1 = Int.fract x := by
  unfold glslMod Int.fract
  rw [div_one, one_mul]

/-- C1. The spec claims the fragment opacity factor is the depth clamped to
[0.2, 1.0] and hence never below 0.2.  The source instead computes
`clamp(0.2, 1.0, depth) = min(max(0.2, 1.0), depth) = min(1.0, depth)`:
the clamp arguments are in the wrong order (GLSL is `clamp(x, lo, hi)`),
so at depth 0.05 the code produces opacity 0.05, below the 0.2 floor the
spec requires, and different from the spec's clamp value 0.2. -/
theorem c1_fragment_opacity_clamp_args_swapped :
    fragmentOpacity (1/20) = 1/20 ∧
    specOpacity (1/20) = 1/5 ∧
    fragmentOpacity (1/20) < 1/5 ∧
    ∀ depth : ℚ, fragmentOpacity depth = min 1 depth := by
  refine ⟨by norm_num [fragmentOpacity, glslClamp],
          by norm_num [specOpacity, glslClamp],
          by norm_num [fragmentOpacity, glslClamp], ?_⟩
  intro depth
  norm_num [fragmentOpacity, glslClamp]

/-- C2. For every uniform value `time` and every per-instance `timeOffset`
in [0,1), the vertex shader's `lifeProgress = mod(time + timeOffset, 1.0)`
lies in the half-open interval [0, 1). -/
theorem c2_lifeProgress_in_unit_interval (time timeOffset : ℚ)
    (h0 : 0 ≤ timeOffset) (h1 : timeOffset < 1) :
    0 ≤ lifeProgress time timeOffset ∧ lifeProgress time timeOffset < 1 := by
  unfold lifeProgress
  rw [glslMod_one]
  exact ⟨Int.fract_nonneg _, Int.fract_lt_one _⟩

/-- Witness for C2 at time = 3/2, timeOffset = 1/3. -/
theorem c2_lifeProgress_in_unit_interval_witness :
    0 ≤ lifeProgress (3/2) (1/3) ∧ lifeProgress (3/2) (1/3) < 1 :=
  c2_lifeProgress_in_unit_interval (3/2) (1/3) (by norm_num) (by norm_num)

/-- C3. One `update(dt)` call increases the internal accumulator by the fixed
constant 0.0001 regardless of `dt`, publishes the `time` uniform as
`sin` of the new accumulator value, and two runs from equal states with
different `dt` arguments produce equal resulting states. -/
theorem c3_update_fixed_step_deterministic (s : PSState) (dt dt' : ℚ) :
    s.update dt = s.update dt' ∧
    (s.update dt).time = s.time + 1/10000 ∧
    (s.update dt).timeUniform = Real.sin ((s.time + 1/10000 : ℚ) : ℝ) :=
  ⟨rfl, rfl, rfl⟩

lemma updateN_time (s : PSState) (n : ℕ) :
    (s.updateN n).time = s.time + n / 10000 := by
  induction n with
  | zero => simp [PSState.updateN]
  | succ n ih =>
      simp only [PSState.updateN, PSState.update, ih]
      push_cast
      ring

/-- C10. The `time` uniform starts at 5.0, but after any positive number of
`update` calls it equals a sine value and hence lies in [-1, 1]; the internal
accumulator is strictly increasing across successive `update` calls. -/
theorem c10_uniform_bounded_accumulator_increasing (n : ℕ) (hn : 1 ≤ n) :
    particleInit.timeUniform = 5 ∧
    (-1 ≤ (particleInit.updateN n).timeUniform ∧
      (particleInit.updateN n).timeUniform ≤ 1) ∧
    ∀ m : ℕ, (particleInit.updateN m).time < (particleInit.updateN (m+1)).time := by
  refine ⟨rfl, ?_, ?_⟩
  · obtain ⟨k, rfl⟩ := Nat.exists_eq_add_of_le hn
    simp only [Nat.add_comm 1 k, PSState.updateN, PSState.update]
    exact ⟨Real.neg_one_le_sin _, Real.sin_le_one _⟩
  · intro m
    rw [updateN_time, updateN_time]
    push_cast
    linarith

/-- Witness for C10 at n = 1. -/
theorem c10_uniform_bounded_accumulator_increasing_witness :
    particleInit.timeUniform = 5 ∧
    (-1 ≤ (particleInit.updateN 1).timeUniform ∧
      (particleInit.updateN 1).timeUniform ≤ 1) ∧
    ∀ m : ℕ, (particleInit.updateN m).time < (particleInit.updateN (m+1)).time :=
  c10_uniform_bounded_accumulator_increasing 1 (by norm_num)

/-! ## Theorems for claims C4 and C8 -/

lemma colorsLoop_length (g o : ℚ × ℚ × ℚ × ℚ) (count n : ℕ) :
    (colorsLoop g o count n).length = n := by
  induction n generalizing count with
  | zero => rfl
  | succ n ih =>
      simp only [colorsLoop]
      split <;> simp [ih]

lemma sumSq4Q_nonneg (v : Fin 4 → ℚ) : 0 ≤ sumSq4Q v := by
  unfold sumSq4Q
  positivity

lemma vec4Normalize_sumSq (v : Fin 4 → ℚ) (h : sumSq4Q v ≠ 0) :
    sumSq4R (vec4Normalize v) = 1 := by
  have h0 : (0:ℝ) ≤ ((sumSq4Q v : ℚ) : ℝ) := by exact_mod_cast sumSq4Q_nonneg v
  have hR : ((sumSq4Q v : ℚ) : ℝ) ≠ 0 := by exact_mod_cast h
  have hsq : Real.sqrt ((sumSq4Q v : ℚ) : ℝ) ^ 2 = ((sumSq4Q v : ℚ) : ℝ) :=
    Real.sq_sqrt h0
  have hcast : ((sumSq4Q v : ℚ) : ℝ) =
      (v 0 : ℝ) ^ 2 + (v 1 : ℝ) ^ 2 + (v 2 : ℝ) ^ 2 + (v 3 : ℝ) ^ 2 := by
    unfold sumSq4Q
    push_cast
    ring
  unfold vec4Normalize
  rw [if_neg h]
  unfold sumSq4R
  rw [div_pow, div_pow, div_pow, div_pow, hsq, div_add_div_same,
    div_add_div_same, div_add_div_same, ← hcast, div_self hR]

lemma vec4Normalize_unit (v : Fin 4 → ℚ) (h : sumSq4Q v ≠ 0) :
    |Real.sqrt (sumSq4R (vec4Normalize v)) - 1| ≤ 1/100000 := by
  rw [vec4Normalize_sumSq v h, Real.sqrt_one]
  norm_num

/-- C4. With the instance count generalised to any N > 0 (the source fixes
2000), the constructor builds exactly N entries in each per-instance
attribute array, and — provided no sampled orientation 4-vector is exactly
zero, which is how `Math.random()` behaves outside a measure-zero event —
every stored orientation quaternion has unit magnitude within 1e-5. -/
theorem c4_geometry_counts_and_unit_quaternions (rand : ℕ → ℚ) (N : ℕ)
    (hN : 0 < N)
    (hs : ∀ i : ℕ, sumSq4Q (quatSample rand (4*N + 4*i)) ≠ 0)
    (he : ∀ i : ℕ, sumSq4Q (quatSample rand (8*N + 4*i)) ≠ 0) :
    (buildGeometry rand N).offsets.length = N ∧
    (buildGeometry rand N).colors.length = N ∧
    (buildGeometry rand N).timeOffsets.length = N ∧
    (buildGeometry rand N).orientationStart.length = N ∧
    (buildGeometry rand N).orientationEnd.length = N ∧
    (∀ q ∈ (buildGeometry rand N).orientationStart,
      |Real.sqrt (sumSq4R q) - 1| ≤ 1/100000) ∧
    (∀ q ∈ (buildGeometry rand N).orientationEnd,
      |Real.sqrt (sumSq4R q) - 1| ≤ 1/100000) := by
  refine ⟨?_, ?_, ?_, ?_, ?_, ?_, ?_⟩
  · simp [buildGeometry]
  · simp [buildGeometry, colorsLoop_length]
  · simp [buildGeometry]
  · simp [buildGeometry]
  · simp [buildGeometry]
  · intro q hq
    simp only [buildGeometry, List.mem_map, List.mem_range] at hq
    obtain ⟨i, _, rfl⟩ := hq
    exact vec4Normalize_unit _ (hs i)
  · intro q hq
    simp only [buildGeometry, List.mem_map, List.mem_range] at hq
    obtain ⟨i, _, rfl⟩ := hq
    exact vec4Normalize_unit _ (he i)

/-- Witness for C4 at N = 1 with the constant random stream 3/4 (every
sampled orientation vector is (1/2, 1/2, 1/2, 1/2), of squared length 1). -/
theorem c4_geometry_counts_and_unit_quaternions_witness :
    (buildGeometry (fun _ => 3/4) 1).offsets.length = 1 ∧
    (buildGeometry (fun _ => 3/4) 1).colors.length = 1 ∧
    (buildGeometry (fun _ => 3/4) 1).timeOffsets.length = 1 ∧
    (buildGeometry (fun _ => 3/4) 1).orientationStart.length = 1 ∧
    (buildGeometry (fun _ => 3/4) 1).orientationEnd.length = 1 ∧
    (∀ q ∈ (buildGeometry (fun _ => 3/4) 1).orientationStart,
      |Real.sqrt (sumSq4R q) - 1| ≤ 1/100000) ∧
    (∀ q ∈ (buildGeometry (fun _ => 3/4) 1).orientationEnd,
      |Real.sqrt (sumSq4R q) - 1| ≤ 1/100000) :=
  c4_geometry_counts_and_unit_quaternions (fun _ => 3/4) 1 (by norm_num)
    (fun i => by norm_num [quatSample, sumSq4Q])
    (fun i => by norm_num [quatSample, sumSq4Q])

/-- C8 counterexample. The claim says every count N ≤ 0 is rejected with a
descriptive error before allocation; but at N = 0 construction succeeds
silently, returning empty attribute arrays. -/
theorem c8_zero_count_not_rejected :
    particleConstructN (fun _ => 0) 0 =
      Except.ok (buildGeometry (fun _ => 0) 0) := by
  rfl

/-- C8 amended. The constructor performs no count validation: a zero count
silently yields empty per-instance arrays; a negative count fails only at
typed-array allocation (a RangeError), not with a descriptive pre-allocation
rejection; and the sampled code fixes the count at 2000, which succeeds. -/
theorem c8_no_count_validation (rand : ℕ → ℚ) (N : ℤ) :
    (N < 0 →
      particleConstructN rand N =
        Except.error "RangeError: invalid typed array length") ∧
    particleConstructN rand 0 = Except.ok (buildGeometry rand 0) ∧
    (buildGeometry rand 0).offsets.length = 0 ∧
    (buildGeometry rand 0).colors.length = 0 ∧
    (buildGeometry rand 0).timeOffsets.length = 0 ∧
    (buildGeometry rand 0).orientationStart.length = 0 ∧
    (buildGeometry rand 0).orientationEnd.length = 0 ∧
    particleConstructN rand 2000 = Except.ok (buildGeometry rand 2000) := by
  refine ⟨fun hneg => ?_, ?_, ?_, ?_, ?_, ?_, ?_, ?_⟩
  · unfold particleConstructN
    rw [if_pos hneg]
  · rfl
  · simp [buildGeometry]
  · simp [buildGeometry, colorsLoop]
  · simp [buildGeometry]
  · simp [buildGeometry]
  · simp [buildGeometry]
  · unfold particleConstructN
    rw [if_neg (by norm_num)]
    rfl

/-- Witness for C8 at N = -1. -/
theorem c8_no_count_validation_witness :
    particleConstructN (fun _ => 1/2) (-1) =
      Except.error "RangeError: invalid typed array length" :=
  (c8_no_count_validation (fun _ => 1/2) (-1)).1 (by norm_num)

/-! ## Theorems for claims C5, C6, C7, C9 -/

/-- C5 counterexample. At a concrete mounted state, a theme change in
RoboticsScene hands the camera, renderer, particle geometry (and scene) new
allocation ids: the objects are recreated, not kept, contradicting the claim
that only the light set is replaced. -/
theorem c5_robotics_theme_change_recreates_camera :
    (roboticsThemeChange ⟨6, 0, 1, (0, 17/10, 1/2), 2, 3, [4, 5], 0⟩).cameraId ≠
      (⟨6, 0, 1, (0, 17/10, 1/2), 2, 3, [4, 5], 0⟩ : SceneState).cameraId ∧
    (roboticsThemeChange ⟨6, 0, 1, (0, 17/10, 1/2), 2, 3, [4, 5], 0⟩).geometryId ≠
      (⟨6, 0, 1, (0, 17/10, 1/2), 2, 3, [4, 5], 0⟩ : SceneState).geometryId ∧
    (roboticsThemeChange ⟨6, 0, 1, (0, 17/10, 1/2), 2, 3, [4, 5], 0⟩).rendererId ≠
      (⟨6, 0, 1, (0, 17/10, 1/2), 2, 3, [4, 5], 0⟩ : SceneState).rendererId := by
  refine ⟨by decide, by decide, by decide⟩

/-- C5 amended. In the Portrait component a theme change replaces exactly
the light set (plus the scene background colour object), leaving scene,
camera (object and position), renderer and geometry untouched; in
RoboticsScene a theme change instead recreates the scene, camera, renderer
and particle geometry. -/
theorem c5_theme_change_minimal_invalidation (s : SceneState) (hwf : s.wf) :
    (portraitThemeChange s).sceneId = s.sceneId ∧
    (portraitThemeChange s).cameraId = s.cameraId ∧
    (portraitThemeChange s).cameraPos = s.cameraPos ∧
    (portraitThemeChange s).rendererId = s.rendererId ∧
    (portraitThemeChange s).geometryId = s.geometryId ∧
    (portraitThemeChange s).lightIds.length = 2 ∧
    (∀ l ∈ (portraitThemeChange s).lightIds, l ∉ s.lightIds) ∧
    (roboticsThemeChange s).cameraId ≠ s.cameraId ∧
    (roboticsThemeChange s).geometryId ≠ s.geometryId ∧
    (roboticsThemeChange s).rendererId ≠ s.rendererId := by
  obtain ⟨hc, hg, hr, hl⟩ := hwf
  refine ⟨rfl, rfl, rfl, rfl, rfl, rfl, ?_, ?_, ?_, ?_⟩
  · intro l hlmem hold
    have := hl l hold
    simp only [portraitThemeChange, List.mem_cons, List.mem_singleton,
      List.not_mem_nil, or_false] at hlmem
    rcases hlmem with h | h <;> omega
  · simp only [roboticsThemeChange]
    omega
  · simp only [roboticsThemeChange]
    omega
  · simp only [roboticsThemeChange]
    omega

/-- Witness for C5 at a concrete well-formed state. -/
theorem c5_theme_change_minimal_invalidation_witness :
    (portraitThemeChange ⟨6, 0, 1, (0, 0, 2), 2, 3, [4, 5], 0⟩).cameraId =
      (⟨6, 0, 1, (0, 0, 2), 2, 3, [4, 5], 0⟩ : SceneState).cameraId ∧
    (∀ l ∈ (portraitThemeChange ⟨6, 0, 1, (0, 0, 2), 2, 3, [4, 5], 0⟩).lightIds,
      l ∉ (⟨6, 0, 1, (0, 0, 2), 2, 3, [4, 5], 0⟩ : SceneState).lightIds) ∧
    (roboticsThemeChange ⟨6, 0, 1, (0, 0, 2), 2, 3, [4, 5], 0⟩).cameraId ≠
      (⟨6, 0, 1, (0, 0, 2), 2, 3, [4, 5], 0⟩ : SceneState).cameraId := by
  have h := c5_theme_change_minimal_invalidation
    ⟨6, 0, 1, (0, 0, 2), 2, 3, [4, 5], 0⟩
    (by unfold SceneState.wf; decide)
  exact ⟨h.2.1, h.2.2.2.2.2.2.1, h.2.2.2.2.2.2.2.1⟩

/-- C6 counterexample. Mounting RoboticsScene with reduced motion performs
no render at all (count 0, not exactly 1): its render effect is skipped
entirely, and no resize routine runs on mount either. -/
theorem c6_robotics_reduced_mount_never_renders :
    (roboticsMount true).count Ev.render = 0 ∧
    (roboticsMount true).count Ev.render ≠ 1 ∧
    (roboticsMount true).count Ev.schedule = 0 := by
  refine ⟨?_, ?_, ?_⟩ <;> decide

/-- C6 amended. Mounting the Portrait component with reduced motion never
schedules a frame-paced tick (the loop never enters Running) and performs
exactly one render after the initial resize call returns, for either
viewport-visibility value; mounting RoboticsScene with reduced motion also
schedules no tick but performs no render at all. -/
theorem c6_reduced_motion_single_render (inViewport : Bool) :
    (portraitMount true inViewport).count Ev.schedule = 0 ∧
    (portraitAfterResizeEv true inViewport).count Ev.render = 1 ∧
    (roboticsMount true).count Ev.schedule = 0 ∧
    (roboticsMount true).count Ev.render = 0 := by
  cases inViewport <;> exact ⟨by decide, by decide, by decide, by decide⟩

/-- C7 counterexample. The RoboticsScene mount trace contains no call of the
resize routine (with or without reduced motion): there the routine is only
registered as a window event listener, so it is not invoked immediately on
mount as the claim states. -/
theorem c7_robotics_mount_never_calls_resize :
    (roboticsMount false).count Ev.resize = 0 ∧
    (roboticsMount true).count Ev.resize = 0 := by
  exact ⟨by decide, by decide⟩

/-- C7 amended. One call of either resize routine with container dimensions
(w, h) sets the renderer size to (w, h), the camera aspect to w/h, and
recomputes the projection matrix from that aspect; the Portrait component
invokes the routine exactly once immediately on mount, while RoboticsScene
only registers it for window resize events. -/
theorem c7_resize_updates_renderer_camera_projection (w h : ℚ) (s : ViewState)
    (reduced inViewport : Bool) :
    (portraitHandleResize w h s).rendererW = w ∧
    (portraitHandleResize w h s).rendererH = h ∧
    (portraitHandleResize w h s).aspect = w / h ∧
    (portraitHandleResize w h s).projAspect = w / h ∧
    (portraitHandleResize w h s).projCount = s.projCount + 1 ∧
    roboticsHandleWindowResize w h s = portraitHandleResize w h s ∧
    (portraitMount reduced inViewport).count Ev.resize = 1 := by
  refine ⟨rfl, rfl, rfl, rfl, rfl, rfl, ?_⟩
  cases reduced <;> cases inViewport <;> decide

/-- C9. Calling the render-loop stop operation twice from any reachable
controller state raises no error (it is a total function), is idempotent,
and leaves zero pending frame-pacing ticks. -/
theorem c9_loop_stop_idempotent_no_pending (s : LoopState)
    (hs : s.reachable) :
    (loopStop (loopStop s)).pendingTicks = [] ∧
    loopStop (loopStop s) = loopStop s := by
  obtain ⟨p, a⟩ := s
  unfold LoopState.reachable at hs
  unfold loopStop cancelAnimationFrame
  dsimp only at hs ⊢
  rcases hs with hidle | ⟨t, hanim, hpend⟩
  · subst hidle
    cases a <;> simp
  · subst hanim
    subst hpend
    simp [List.erase_cons]

/-- Witness for C9 in the Running state with pending tick 7. -/
theorem c9_loop_stop_idempotent_no_pending_witness :
    (loopStop (loopStop ⟨[7], some 7⟩)).pendingTicks = [] ∧
    loopStop (loopStop ⟨[7], some 7⟩) = loopStop ⟨[7], some 7⟩ :=
  c9_loop_stop_idempotent_no_pending ⟨[7], some 7⟩ (Or.inr ⟨7, rfl, rfl⟩)
